import Mathlib

/-!
Shallow embedding of the gosnowflake logging facade (src/log.go) and the
parts of its underlying engine (logrus) that the facade's behavior depends
on.  Pure Go functions become Lean functions; the mutable logger state
becomes explicit state passing; Go errors become `Option String`
(none = nil error).  External collaborators (the secret masker, the
logrus text formatter, `fmt` formatting of arguments) are taken as
function parameters, since the facade treats them as black boxes.
-/

/-- A Go value stored in a field map or a context (`interface{}` in Go).
Only the shapes the tests exercise are needed: strings and integers. -/
inductive GoValue where
  | str (s : String)
  | int (n : Int)
  deriving DecidableEq, Repr

/-- Model of Go `strings.ToUpper` (on the ASCII level names this facade
handles): uppercase every character. -/
def goToUpper (s : String) : String := String.mk (s.data.map Char.toUpper)

/-- Model of Go `strings.ToLower`: lowercase every character. -/
def goToLower (s : String) : String := String.mk (s.data.map Char.toLower)

/-- Model of logrus severity levels (`rlog.Level`). -/
inductive Level where
  | panic
  | fatal
  | error
  | warn
  | info
  | debug
  | trace
  deriving DecidableEq, Repr

/-- Numeric ordinal of a logrus level (PanicLevel = 0 .. TraceLevel = 6). -/
def Level.ord : Level → Nat
  | .panic => 0
  | .fatal => 1
  | .error => 2
  | .warn => 3
  | .info => 4
  | .debug => 5
  | .trace => 6

/-- Model of logrus `Level.String` (via `MarshalText`): the canonical
lowercase name of a level; note `WarnLevel` renders as "warning". -/
def Level.toStr : Level → String
  | .panic => "panic"
  | .fatal => "fatal"
  | .error => "error"
  | .warn => "warning"
  | .info => "info"
  | .debug => "debug"
  | .trace => "trace"

/-- Model of logrus `ParseLevel`: case-insensitive name lookup, accepting
"warn" and "warning" as aliases for `WarnLevel`, failing otherwise. -/
def ParseLevel (lvl : String) : Except String Level :=
  let l := goToLower lvl
  if l = "panic" then .ok .panic
  else if l = "fatal" then .ok .fatal
  else if l = "error" then .ok .error
  else if l = "warn" then .ok .warn
  else if l = "warning" then .ok .warn
  else if l = "info" then .ok .info
  else if l = "debug" then .ok .debug
  else if l = "trace" then .ok .trace
  else .error ("not a valid logrus Level: " ++ lvl)

/-- `Fields` (src/log.go:44): a Go map from string key to value, embedded
as an association list with at most one entry per key; `set` is Go map
assignment (replace in place, or append a fresh key). -/
abbrev Fields := List (String × GoValue)

/-- The empty field map. -/
def Fields.empty : Fields := []

/-- Go map assignment `fields[k] = v`: overwrite the entry for `k` if one
exists, otherwise add one. -/
def Fields.set (f : Fields) (k : String) (v : GoValue) : Fields :=
  if f.any (fun p => p.1 = k) then
    f.map (fun p => if p.1 = k then (k, v) else p)
  else
    f ++ [(k, v)]

/-- Go map lookup `fields[k]`. -/
def Fields.get (f : Fields) (k : String) : Option GoValue :=
  (f.find? (fun p => p.1 = k)).map Prod.snd

/-- A logrus entry as seen by a formatter: the primary message text plus
the structured field map (`entry.Message`, `entry.Data`). -/
structure RlogEntry where
  message : String
  data : Fields

/-- `sfTextFormatter.Format` (src/log.go:119-123): masks all secrets in
the entry's message and then delegates to the embedded logrus
`TextFormatter.Format`.  `maskSecrets` is the external masking
collaborator (defined elsewhere in the repository) and `textFormat` the
external logrus text formatter; both are black boxes to this file. -/
def sfTextFormatter.Format (maskSecrets : String → String)
    (textFormat : RlogEntry → String) (entry : RlogEntry) : String :=
  textFormat { entry with message := maskSecrets entry.message }

/-- State of the underlying logrus engine instance that the facade
manipulates: the level, the writer identity (`SetOutput` target), the
report-caller flag, the installed formatter, and the list of rendered
lines written to the output sink so far. -/
structure RlogLogger where
  level : Level
  output : Nat
  reportCaller : Bool
  formatter : RlogEntry → String
  out : List String

/-- logrus `IsLevelEnabled`: a message at severity `lvl` is emitted when
the logger's level is at least as verbose. -/
def RlogLogger.isLevelEnabled (l : RlogLogger) (lvl : Level) : Bool :=
  lvl.ord ≤ l.level.ord

/-- The logrus emit primitive: if the level passes, render the entry
(message plus attached fields) through the installed formatter and append
the line to the output sink; otherwise do nothing. -/
def RlogLogger.logWith (l : RlogLogger) (lvl : Level) (fields : Fields)
    (msg : String) : RlogLogger :=
  if l.isLevelEnabled lvl then
    { l with out := l.out ++ [l.formatter { message := msg, data := fields }] }
  else l

/-- Outcome of a Go call: normal return, `os.Exit`, or a raised panic. -/
inductive GoEffect where
  | normal
  | exit (code : Nat)
  | panicked
  deriving DecidableEq, Repr

/-- logrus `Logger.Fatalf`/`Fatal`/`Fatalln`: log at fatal level, then
always call `Exit(1)`. -/
def RlogLogger.fatalCall (l : RlogLogger) (msg : String) :
    RlogLogger × GoEffect :=
  (l.logWith .fatal Fields.empty msg, .exit 1)

/-- logrus `Logger.Panicf`/`Panic`/`Panicln`: log at panic level (always
enabled, since panic is the least verbose level) and raise a panic. -/
def RlogLogger.panicCall (l : RlogLogger) (msg : String) :
    RlogLogger × GoEffect :=
  (l.logWith .panic Fields.empty msg, .panicked)

/-- logrus emit for the non-terminating severities: log and return
normally. -/
def RlogLogger.plainCall (l : RlogLogger) (lvl : Level) (msg : String) :
    RlogLogger × GoEffect :=
  (l.logWith lvl Fields.empty msg, .normal)

/-- `defaultLogger` (src/log.go:109-113): the underlying engine, the
enabled gate, and the optional tracked file (handle identity; none = nil). -/
structure DefaultLogger where
  inner : RlogLogger
  enabled : Bool
  file : Option Nat

/-- `defaultLogger.SetLogLevel` (src/log.go:126-137): any non-"OFF" name
(case-insensitive) sets `enabled` to true *before* the name is parsed;
"OFF" disables without touching the engine; a parse failure is returned
after the enabled flag was already flipped. -/
def DefaultLogger.SetLogLevel (log : DefaultLogger) (level : String) :
    DefaultLogger × Option String :=
  let newEnabled : Bool := goToUpper level != "OFF"
  let log := { log with enabled := newEnabled }
  if newEnabled then
    match ParseLevel level with
    | .error e => (log, some e)
    | .ok actualLevel =>
        ({ log with inner := { log.inner with level := actualLevel } }, none)
  else
    (log, none)

/-- `defaultLogger.GetLogLevel` (src/log.go:140-145): "OFF" when the gate
is disabled, else the engine level's name. -/
def DefaultLogger.GetLogLevel (log : DefaultLogger) : String :=
  if !log.enabled then "OFF" else log.inner.level.toStr

/-- `defaultLogger.CloseFileOnLoggerReplace` (src/log.go:148-154): reject
a second distinct file; otherwise record the file. -/
def DefaultLogger.CloseFileOnLoggerReplace (log : DefaultLogger)
    (file : Nat) : DefaultLogger × Option String :=
  match log.file with
  | some f =>
      if f ≠ file then
        (log, some "could not set a file to close on logger reset because there were already set one")
      else
        ({ log with file := some file }, none)
  | none => ({ log with file := some file }, none)

/-- `defaultLogger.SetOutput` (src/log.go:417-419): redirect the engine's
writer. -/
def DefaultLogger.SetOutput (log : DefaultLogger) (output : Nat) :
    DefaultLogger :=
  { log with inner := { log.inner with output := output } }

/-- `defaultLogger.SetReportCaller` (src/log.go:421-423). -/
def DefaultLogger.SetReportCaller (log : DefaultLogger)
    (reportCaller : Bool) : DefaultLogger :=
  { log with inner := { log.inner with reportCaller := reportCaller } }

/-! The 27 leveled methods of `defaultLogger` (src/log.go:225-385): nine
severities in formatted, argument-list, and line variants.  The `fmt`
rendering of the variadic arguments to one message string is external, so
every variant takes the already-rendered message.  Each method delegates
to the engine only when the enabled gate is set. -/

/-- Lifts an engine call to the facade behind the enabled gate: the shape
`if log.enabled { log.inner.X(...) }` shared by all 27 methods. -/
def DefaultLogger.gated (log : DefaultLogger)
    (call : RlogLogger → RlogLogger × GoEffect) : DefaultLogger × GoEffect :=
  if log.enabled then
    let r := call log.inner
    ({ log with inner := r.1 }, r.2)
  else
    (log, .normal)

def DefaultLogger.Tracef (log : DefaultLogger) (msg : String) :
    DefaultLogger × GoEffect :=
  log.gated (fun l => l.plainCall .trace msg)

def DefaultLogger.Debugf (log : DefaultLogger) (msg : String) :
    DefaultLogger × GoEffect :=
  log.gated (fun l => l.plainCall .debug msg)

def DefaultLogger.Infof (log : DefaultLogger) (msg : String) :
    DefaultLogger × GoEffect :=
  log.gated (fun l => l.plainCall .info msg)

def DefaultLogger.Printf (log : DefaultLogger) (msg : String) :
    DefaultLogger × GoEffect :=
  log.gated (fun l => l.plainCall .info msg)

def DefaultLogger.Warnf (log : DefaultLogger) (msg : String) :
    DefaultLogger × GoEffect :=
  log.gated (fun l => l.plainCall .warn msg)

def DefaultLogger.Warningf (log : DefaultLogger) (msg : String) :
    DefaultLogger × GoEffect :=
  log.gated (fun l => l.plainCall .warn msg)

def DefaultLogger.Errorf (log : DefaultLogger) (msg : String) :
    DefaultLogger × GoEffect :=
  log.gated (fun l => l.plainCall .error msg)

def DefaultLogger.Fatalf (log : DefaultLogger) (msg : String) :
    DefaultLogger × GoEffect :=
  log.gated (fun l => l.fatalCall msg)

def DefaultLogger.Panicf (log : DefaultLogger) (msg : String) :
    DefaultLogger × GoEffect :=
  log.gated (fun l => l.panicCall msg)

def DefaultLogger.Trace (log : DefaultLogger) (msg : String) :
    DefaultLogger × GoEffect :=
  log.gated (fun l => l.plainCall .trace msg)

def DefaultLogger.Debug (log : DefaultLogger) (msg : String) :
    DefaultLogger × GoEffect :=
  log.gated (fun l => l.plainCall .debug msg)

def DefaultLogger.Info (log : DefaultLogger) (msg : String) :
    DefaultLogger × GoEffect :=
  log.gated (fun l => l.plainCall .info msg)

def DefaultLogger.Print (log : DefaultLogger) (msg : String) :
    DefaultLogger × GoEffect :=
  log.gated (fun l => l.plainCall .info msg)

def DefaultLogger.Warn (log : DefaultLogger) (msg : String) :
    DefaultLogger × GoEffect :=
  log.gated (fun l => l.plainCall .warn msg)

def DefaultLogger.Warning (log : DefaultLogger) (msg : String) :
    DefaultLogger × GoEffect :=
  log.gated (fun l => l.plainCall .warn msg)

def DefaultLogger.Error (log : DefaultLogger) (msg : String) :
    DefaultLogger × GoEffect :=
  log.gated (fun l => l.plainCall .error msg)

def DefaultLogger.Fatal (log : DefaultLogger) (msg : String) :
    DefaultLogger × GoEffect :=
  log.gated (fun l => l.fatalCall msg)

def DefaultLogger.Panic (log : DefaultLogger) (msg : String) :
    DefaultLogger × GoEffect :=
  log.gated (fun l => l.panicCall msg)

def DefaultLogger.Traceln (log : DefaultLogger) (msg : String) :
    DefaultLogger × GoEffect :=
  log.gated (fun l => l.plainCall .trace msg)

def DefaultLogger.Debugln (log : DefaultLogger) (msg : String) :
    DefaultLogger × GoEffect :=
  log.gated (fun l => l.plainCall .debug msg)

def DefaultLogger.Infoln (log : DefaultLogger) (msg : String) :
    DefaultLogger × GoEffect :=
  log.gated (fun l => l.plainCall .info msg)

def DefaultLogger.Println (log : DefaultLogger) (msg : String) :
    DefaultLogger × GoEffect :=
  log.gated (fun l => l.plainCall .info msg)

def DefaultLogger.Warnln (log : DefaultLogger) (msg : String) :
    DefaultLogger × GoEffect :=
  log.gated (fun l => l.plainCall .warn msg)

def DefaultLogger.Warningln (log : DefaultLogger) (msg : String) :
    DefaultLogger × GoEffect :=
  log.gated (fun l => l.plainCall .warn msg)

def DefaultLogger.Errorln (log : DefaultLogger) (msg : String) :
    DefaultLogger × GoEffect :=
  log.gated (fun l => l.plainCall .error msg)

def DefaultLogger.Fatalln (log : DefaultLogger) (msg : String) :
    DefaultLogger × GoEffect :=
  log.gated (fun l => l.fatalCall msg)

def DefaultLogger.Panicln (log : DefaultLogger) (msg : String) :
    DefaultLogger × GoEffect :=
  log.gated (fun l => l.panicCall msg)

/-- The 27 leveled methods of the `LogEntry` surface, as data, so that
theorems can quantify over "every leveled method". -/
inductive Meth where
  | tracef | debugf | infof | printf | warnf | warningf | errorf | fatalf | panicf
  | trace | debug | info | print | warn | warning | error | fatal | panic
  | traceln | debugln | infoln | println | warnln | warningln | errorln | fatalln | panicln
  deriving DecidableEq, Repr

/-- Dispatch a `Meth` to the corresponding facade method. -/
def DefaultLogger.call (log : DefaultLogger) (m : Meth) (msg : String) :
    DefaultLogger × GoEffect :=
  match m with
  | .tracef => log.Tracef msg
  | .debugf => log.Debugf msg
  | .infof => log.Infof msg
  | .printf => log.Printf msg
  | .warnf => log.Warnf msg
  | .warningf => log.Warningf msg
  | .errorf => log.Errorf msg
  | .fatalf => log.Fatalf msg
  | .panicf => log.Panicf msg
  | .trace => log.Trace msg
  | .debug => log.Debug msg
  | .info => log.Info msg
  | .print => log.Print msg
  | .warn => log.Warn msg
  | .warning => log.Warning msg
  | .error => log.Error msg
  | .fatal => log.Fatal msg
  | .panic => log.Panic msg
  | .traceln => log.Traceln msg
  | .debugln => log.Debugln msg
  | .infoln => log.Infoln msg
  | .println => log.Println msg
  | .warnln => log.Warnln msg
  | .warningln => log.Warningln msg
  | .errorln => log.Errorln msg
  | .fatalln => log.Fatalln msg
  | .panicln => log.Panicln msg

/-- `SFSessionIDKey` (src/log.go:19). -/
def SFSessionIDKey : String := "LOG_SESSION_ID"

/-- `SFSessionUserKey` (src/log.go:22). -/
def SFSessionUserKey : String := "LOG_USER"

/-- `LogKeys` (src/log.go:41): the well-known context keys, in declaration
order. -/
def LogKeys : List String := [SFSessionIDKey, SFSessionUserKey]

/-- A Go `context.Context` as the facade uses it: a lookup from context
key to an optional value.  Hook extractors inspect the context through
arbitrary (typed) keys, which this same lookup models. -/
structure GoContext where
  value : String → Option GoValue

/-- `ClientLogContextHook` (src/log.go:30): extracts one log-field value
from a context, the empty string meaning "absent". -/
abbrev ClientLogContextHook := GoContext → String

/-- `context2Fields` (src/log.go:435-458).  The process-wide
`clientLogContextHooks` map is passed explicitly as an association list of
(key, hook) pairs in some iteration order. -/
def context2Fields (clientLogContextHooks : List (String × ClientLogContextHook))
    (ctxs : List GoContext) : Fields :=
  let fields := Fields.empty
  if ctxs.length ≤ 0 then fields
  else
    let fields := LogKeys.foldl (fun fields key =>
      ctxs.foldl (fun fields ctx =>
        match ctx.value key with
        | some v => fields.set key v
        | none => fields) fields) fields
    clientLogContextHooks.foldl (fun fields kh =>
      ctxs.foldl (fun fields ctx =>
        let value := kh.2 ctx
        if value ≠ "" then fields.set kh.1 (GoValue.str value) else fields)
      fields) fields

/-- The field-extraction algorithm exactly as §4.2 of the spec words it,
for comparison with `context2Fields`: build an empty field map; for each
well-known key in fixed declaration order, for each supplied context in
call order, if the context holds a non-nil value for that key, set
`fields[key] = value`; then for each registered hook, for each supplied
context, if the hook returns a non-empty string, set
`fields[hookKey] = value`. -/
def specContext2Fields (hooks : List (String × ClientLogContextHook))
    (ctxs : List GoContext) : Fields :=
  let step1 := LogKeys.foldl (fun fields key =>
    ctxs.foldl (fun fields ctx =>
      match ctx.value key with
      | some v => fields.set key v
      | none => fields) fields) Fields.empty
  hooks.foldl (fun fields kh =>
    ctxs.foldl (fun fields ctx =>
      if kh.2 ctx ≠ "" then fields.set kh.1 (GoValue.str (kh.2 ctx)) else fields)
    fields) step1

/-- `entryBridge` (src/log.go:217-219): a `LogEntry` handle wrapping a
logrus entry, i.e. the engine it will emit through plus the accumulated
field snapshot. -/
structure EntryBridge where
  logger : RlogLogger
  data : Fields

/-- `defaultLogger.WithFields` (src/log.go:198-201): a fresh entry on the
inner engine carrying the given fields. -/
def DefaultLogger.WithFields (log : DefaultLogger) (fields : Fields) :
    EntryBridge :=
  { logger := log.inner, data := fields }

/-- `defaultLogger.WithField` (src/log.go:192-194). -/
def DefaultLogger.WithField (log : DefaultLogger) (key : String)
    (value : GoValue) : EntryBridge :=
  { logger := log.inner, data := Fields.empty.set key value }

/-- `defaultLogger.WithError` (src/log.go:205-207): logrus `WithError`
sets the conventional "error" field to the error's message. -/
def DefaultLogger.WithError (log : DefaultLogger) (err : String) :
    EntryBridge :=
  { logger := log.inner, data := Fields.empty.set "error" (GoValue.str err) }

/-- `defaultLogger.WithContext` (src/log.go:172-175): extract fields from
the contexts and return `WithFields` of the result. -/
def DefaultLogger.WithContext (log : DefaultLogger)
    (clientLogContextHooks : List (String × ClientLogContextHook))
    (ctxs : List GoContext) : EntryBridge :=
  let fields := context2Fields clientLogContextHooks ctxs
  log.WithFields fields

/-- `CreateDefaultLogger` (src/log.go:178-186): a fresh logrus engine
(default level info, default sink 0) with the masking `sfTextFormatter`
installed and caller reporting on; the facade starts enabled with no
tracked file. -/
def CreateDefaultLogger (maskSecrets : String → String)
    (textFormat : RlogEntry → String) : DefaultLogger :=
  { inner :=
      { level := .info
        output := 0
        reportCaller := true
        formatter := sfTextFormatter.Format maskSecrets textFormat
        out := [] }
    enabled := true
    file := none }

/-- The process-wide state the singleton lives in: the one shared
`logger` variable. -/
structure World where
  logger : DefaultLogger

/-- `SetLogger` (src/log.go:426-428): overwrite the process-wide
singleton. -/
def SetLogger (w : World) (inLogger : DefaultLogger) : World :=
  { w with logger := inLogger }

/-- `GetLogger` (src/log.go:431-433). -/
def GetLogger (w : World) : DefaultLogger :=
  w.logger

/-- `closeLogFile` (src/log.go:162-169): close the tracked file if any;
on failure, log an error through the process-wide singleton.  Whether a
concrete handle's `Close` fails, and with what message, is the
environment's choice, passed in as `closeRes` (none = success). -/
def closeLogFile (closeRes : Nat → Option String) (w : World)
    (file : Option Nat) : World :=
  match file with
  | none => w
  | some f =>
      match closeRes f with
      | none => w
      | some e =>
          { w with logger :=
              (w.logger.Errorf ("failed to close log file: " ++ e)).1 }

/-- `defaultLogger.Replace` (src/log.go:157-160): set the singleton to the
new logger, then close this logger's tracked file. -/
def DefaultLogger.Replace (log : DefaultLogger)
    (closeRes : Nat → Option String) (w : World)
    (newLogger : DefaultLogger) : World :=
  closeLogFile closeRes (SetLogger w newLogger) log.file

/-! Concrete fixtures used by witnesses and counterexamples. -/

/-- A concrete masking function for tests: appends a marker so that
masking is observable. -/
def testMask : String → String := fun s => "masked:" ++ s

/-- A concrete text formatter for tests: renders the message followed by
the field keys. -/
def testRender : RlogEntry → String :=
  fun e => e.message ++ "|" ++ String.intercalate "," (e.data.map Prod.fst)

/-- A concrete engine at info level with a transparent formatter. -/
def testEngine : RlogLogger :=
  { level := .info
    output := 0
    reportCaller := false
    formatter := fun e => e.message
    out := [] }

/-- A concrete enabled logger with no tracked file. -/
def testLogger : DefaultLogger :=
  { inner := testEngine, enabled := true, file := none }

/-- A concrete disabled logger. -/
def testDisabledLogger : DefaultLogger :=
  { inner := testEngine, enabled := false, file := none }

/-- A concrete logger already tracking file handle 5. -/
def testTrackedLogger : DefaultLogger :=
  { inner := testEngine, enabled := true, file := some 5 }

/-! Helper lemmas shared by the claim theorems. -/

/-- Folding a function that ignores every element leaves the accumulator
unchanged. -/
theorem foldl_keep {α β : Type} (l : List α) (init : β) :
    l.foldl (fun acc _ => acc) init = init := by
  induction l generalizing init with
  | nil => rfl
  | cons x xs ih => simp only [List.foldl_cons]; exact ih init

/-- Behind a closed gate, every facade method returns its logger unchanged
with a normal outcome. -/
theorem DefaultLogger.gated_disabled (log : DefaultLogger)
    (h : log.enabled = false) (c : RlogLogger → RlogLogger × GoEffect) :
    log.gated c = (log, .normal) := by
  simp [DefaultLogger.gated, h]

/-- Every one of the 27 leveled methods is a no-op on a disabled logger. -/
theorem DefaultLogger.call_disabled (log : DefaultLogger)
    (h : log.enabled = false) (m : Meth) (msg : String) :
    log.call m msg = (log, .normal) := by
  cases m <;>
    simp [DefaultLogger.call, DefaultLogger.Tracef, DefaultLogger.Debugf,
      DefaultLogger.Infof, DefaultLogger.Printf, DefaultLogger.Warnf,
      DefaultLogger.Warningf, DefaultLogger.Errorf, DefaultLogger.Fatalf,
      DefaultLogger.Panicf, DefaultLogger.Trace, DefaultLogger.Debug,
      DefaultLogger.Info, DefaultLogger.Print, DefaultLogger.Warn,
      DefaultLogger.Warning, DefaultLogger.Error, DefaultLogger.Fatal,
      DefaultLogger.Panic, DefaultLogger.Traceln, DefaultLogger.Debugln,
      DefaultLogger.Infoln, DefaultLogger.Println, DefaultLogger.Warnln,
      DefaultLogger.Warningln, DefaultLogger.Errorln, DefaultLogger.Fatalln,
      DefaultLogger.Panicln, DefaultLogger.gated, h]

/-! Claim theorems. -/

/-- C1: with the default logger's formatter (the masking
`sfTextFormatter`) installed, every line the engine emits — at any
severity, with any attached field map, i.e. regardless of which leveled
method or enrichment chain produced the entry — is the underlying text
formatter applied to the entry whose message has been masked and whose
structured fields are passed through unmasked. -/
theorem C1_mask_applied_to_message_only
    (maskSecrets : String → String) (textFormat : RlogEntry → String)
    (l : RlogLogger) (lvl : Level) (fields : Fields) (msg : String)
    (h : l.formatter = sfTextFormatter.Format maskSecrets textFormat) :
    (l.logWith lvl fields msg).out =
      l.out ++ (if l.isLevelEnabled lvl then
        [textFormat { message := maskSecrets msg, data := fields }]
      else []) := by
  unfold RlogLogger.logWith
  cases hE : l.isLevelEnabled lvl <;>
    simp [hE, h, sfTextFormatter.Format]

/-- Witness for C1 at a concrete engine (`CreateDefaultLogger` with a
concrete masker and renderer), a concrete level, field map and message. -/
theorem C1_mask_applied_to_message_only_witness :
    (CreateDefaultLogger testMask testRender).inner.formatter =
      sfTextFormatter.Format testMask testRender ∧
    ((CreateDefaultLogger testMask testRender).inner.logWith .info
        [("k", GoValue.str "v")] "hello").out =
      (CreateDefaultLogger testMask testRender).inner.out ++
        (if (CreateDefaultLogger testMask testRender).inner.isLevelEnabled .info then
          [testRender { message := testMask "hello", data := [("k", GoValue.str "v")] }]
        else []) :=
  ⟨rfl, C1_mask_applied_to_message_only testMask testRender
    (CreateDefaultLogger testMask testRender).inner .info
    [("k", GoValue.str "v")] "hello" rfl⟩

/-- C2: for any level string whose uppercasing is "OFF", `SetLogLevel`
succeeds, disables the gate, leaves the underlying engine (in particular
its level) untouched, makes `GetLogLevel` report "OFF", and every one of
the 27 leveled methods on the resulting logger is a no-op with a normal
outcome. -/
theorem C2_off_disables_all_output (log : DefaultLogger) (level : String)
    (h : goToUpper level = "OFF") :
    (log.SetLogLevel level).2 = none ∧
    (log.SetLogLevel level).1.enabled = false ∧
    (log.SetLogLevel level).1.inner = log.inner ∧
    (log.SetLogLevel level).1.GetLogLevel = "OFF" ∧
    ∀ (m : Meth) (msg : String),
      (log.SetLogLevel level).1.call m msg =
        ((log.SetLogLevel level).1, .normal) := by
  have hset : log.SetLogLevel level = ({ log with enabled := false }, none) := by
    simp [DefaultLogger.SetLogLevel, h]
  refine ⟨by rw [hset], by rw [hset], by rw [hset], by rw [hset]; rfl, ?_⟩
  intro m msg
  exact DefaultLogger.call_disabled _ (by rw [hset]) m msg

/-- Witness for C2 at the lowercase input "off" on a concrete enabled
logger. -/
theorem C2_off_disables_all_output_witness :
    goToUpper "off" = "OFF" ∧
    ((testLogger.SetLogLevel "off").2 = none ∧
     (testLogger.SetLogLevel "off").1.enabled = false ∧
     (testLogger.SetLogLevel "off").1.inner = testLogger.inner ∧
     (testLogger.SetLogLevel "off").1.GetLogLevel = "OFF" ∧
     ∀ (m : Meth) (msg : String),
       (testLogger.SetLogLevel "off").1.call m msg =
         ((testLogger.SetLogLevel "off").1, .normal)) :=
  ⟨by decide, C2_off_disables_all_output testLogger "off" (by decide)⟩

/-- C3 counterexample: on a concretely disabled logger, `SetLogLevel`
with the unrecognized name "unknown" returns a parse error yet flips the
enabled gate from false to true — the enabled state is *not* left as it
was before the call attempt. -/
theorem C3_counterexample_invalid_name_reenables :
    testDisabledLogger.enabled = false ∧
    (testDisabledLogger.SetLogLevel "unknown").2 =
      some ("not a valid logrus Level: " ++ "unknown") ∧
    (testDisabledLogger.SetLogLevel "unknown").1.enabled = true := by
  refine ⟨rfl, ?_, ?_⟩ <;> decide

/-- C3 amended: for every level name that is neither a recognized
severity nor "OFF" (case-insensitive), `SetLogLevel` returns a parse
error and leaves the engine's level unchanged, but it sets the enabled
gate to true before validating, so a previously disabled logger comes out
enabled rather than keeping its prior enabled state. -/
theorem C3_amended_invalid_name_flips_gate (log : DefaultLogger)
    (level e : String) (hDis : log.enabled = false)
    (hOff : goToUpper level ≠ "OFF")
    (hErr : ParseLevel level = .error e) :
    (log.SetLogLevel level).2 = some e ∧
    (log.SetLogLevel level).1.inner = log.inner ∧
    (log.SetLogLevel level).1.enabled = true ∧
    (log.SetLogLevel level).1.enabled ≠ log.enabled := by
  have hset : log.SetLogLevel level = ({ log with enabled := true }, some e) := by
    simp [DefaultLogger.SetLogLevel, hOff, hErr]
  refine ⟨by rw [hset], by rw [hset], by rw [hset], ?_⟩
  rw [hset, hDis]
  simp

/-- Witness for the amended C3 at the disabled fixture and the name
"unknown". -/
theorem C3_amended_invalid_name_flips_gate_witness :
    testDisabledLogger.enabled = false ∧
    goToUpper "unknown" ≠ "OFF" ∧
    ParseLevel "unknown" = .error ("not a valid logrus Level: " ++ "unknown") ∧
    ((testDisabledLogger.SetLogLevel "unknown").2 =
        some ("not a valid logrus Level: " ++ "unknown") ∧
      (testDisabledLogger.SetLogLevel "unknown").1.inner = testDisabledLogger.inner ∧
      (testDisabledLogger.SetLogLevel "unknown").1.enabled = true ∧
      (testDisabledLogger.SetLogLevel "unknown").1.enabled ≠ testDisabledLogger.enabled) :=
  ⟨rfl, by decide, rfl,
    C3_amended_invalid_name_flips_gate testDisabledLogger "unknown" _
      rfl (by decide) rfl⟩

/-- C4: for every level name that is neither a recognized severity nor
"OFF" (case-insensitive), `SetLogLevel` returns the parse error, leaves
the underlying engine untouched, and has already set the enabled gate to
true, whatever it was before. -/
theorem C4_invalid_name_error_and_enable (log : DefaultLogger)
    (level e : String) (hOff : goToUpper level ≠ "OFF")
    (hErr : ParseLevel level = .error e) :
    log.SetLogLevel level = ({ log with enabled := true }, some e) := by
  simp [DefaultLogger.SetLogLevel, hOff, hErr]

/-- Witness for C4 at a previously disabled logger and the name "bogus". -/
theorem C4_invalid_name_error_and_enable_witness :
    goToUpper "bogus" ≠ "OFF" ∧
    ParseLevel "bogus" = .error ("not a valid logrus Level: " ++ "bogus") ∧
    testDisabledLogger.SetLogLevel "bogus" =
      ({ testDisabledLogger with enabled := true },
        some ("not a valid logrus Level: " ++ "bogus")) :=
  ⟨by decide, rfl,
    C4_invalid_name_error_and_enable testDisabledLogger "bogus" _
      (by decide) rfl⟩

/-- C5: on a disabled logger, every one of the 27 leveled methods returns
the logger unchanged with a normal outcome (no delegation to the engine),
while the configuration calls still take effect: `SetOutput` installs the
writer, `SetReportCaller` sets the flag, `SetLogLevel` on a valid name
updates the engine's level, and `CloseFileOnLoggerReplace` records the
file. -/
theorem C5_disabled_suppresses_only_leveled_calls (log : DefaultLogger)
    (m : Meth) (msg : String) (w : Nat) (rc : Bool) (f : Nat)
    (level : String) (lvl : Level) (hDis : log.enabled = false)
    (hOk : ParseLevel level = .ok lvl) (hOff : goToUpper level ≠ "OFF")
    (hNoFile : log.file = none) :
    log.call m msg = (log, .normal) ∧
    (log.SetOutput w).inner.output = w ∧
    (log.SetReportCaller rc).inner.reportCaller = rc ∧
    ((log.SetLogLevel level).1.inner.level = lvl ∧
      (log.SetLogLevel level).2 = none) ∧
    log.CloseFileOnLoggerReplace f = ({ log with file := some f }, none) := by
  refine ⟨log.call_disabled hDis m msg, rfl, rfl, ?_, ?_⟩
  · have hset : log.SetLogLevel level =
        ({ { log with enabled := true } with
            inner := { log.inner with level := lvl } }, none) := by
      simp [DefaultLogger.SetLogLevel, hOff, hOk]
    rw [hset]
    exact ⟨rfl, rfl⟩
  · simp [DefaultLogger.CloseFileOnLoggerReplace, hNoFile]

/-- Witness for C5 at the disabled fixture: the Infof method, a writer
identity, the report-caller flag, a file handle and the valid level name
"debug". -/
theorem C5_disabled_suppresses_only_leveled_calls_witness :
    testDisabledLogger.enabled = false ∧
    ParseLevel "debug" = .ok .debug ∧
    goToUpper "debug" ≠ "OFF" ∧
    testDisabledLogger.file = none ∧
    (testDisabledLogger.call .infof "hi" = (testDisabledLogger, .normal) ∧
      (testDisabledLogger.SetOutput 2).inner.output = 2 ∧
      (testDisabledLogger.SetReportCaller true).inner.reportCaller = true ∧
      ((testDisabledLogger.SetLogLevel "debug").1.inner.level = .debug ∧
        (testDisabledLogger.SetLogLevel "debug").2 = none) ∧
      testDisabledLogger.CloseFileOnLoggerReplace 4 =
        ({ testDisabledLogger with file := some 4 }, none)) :=
  ⟨rfl, rfl, by decide, rfl,
    C5_disabled_suppresses_only_leveled_calls testDisabledLogger .infof "hi"
      2 true 4 "debug" .debug rfl rfl (by decide) rfl⟩

/-- C6: the field map `WithContext` extracts equals the algorithm the
spec states (well-known keys in declaration order, contexts in argument
order, later contexts overwriting earlier ones; then hooks, keeping only
non-empty extraction results); zero contexts yield the empty field map;
and `WithContext` is exactly `WithFields` of the extracted map. -/
theorem C6_withContext_field_extraction
    (hooks : List (String × ClientLogContextHook)) (ctxs : List GoContext)
    (log : DefaultLogger) :
    context2Fields hooks ctxs = specContext2Fields hooks ctxs ∧
    context2Fields hooks [] = Fields.empty ∧
    log.WithContext hooks ctxs = log.WithFields (context2Fields hooks ctxs) := by
  refine ⟨?_, rfl, rfl⟩
  cases ctxs with
  | nil =>
      simp only [context2Fields, specContext2Fields, List.length_nil,
        Nat.le_refl, if_pos, List.foldl_nil, foldl_keep]
  | cons c cs =>
      have hne : ¬ ((c :: cs).length ≤ 0) := by simp
      simp only [context2Fields, specContext2Fields, if_neg hne]

/-- C7: registering a close-on-replace file succeeds when none is tracked
and when the same handle is registered again; registering a distinct
handle while one is tracked returns an error and keeps the previous
registration unchanged. -/
theorem C7_close_file_registration (log : DefaultLogger) (f g : Nat) :
    (log.file = none →
      log.CloseFileOnLoggerReplace f = ({ log with file := some f }, none)) ∧
    (log.file = some f →
      log.CloseFileOnLoggerReplace f = ({ log with file := some f }, none)) ∧
    (log.file = some f → f ≠ g →
      log.CloseFileOnLoggerReplace g =
        (log, some "could not set a file to close on logger reset because there were already set one")) := by
  refine ⟨?_, ?_, ?_⟩
  · intro h
    simp [DefaultLogger.CloseFileOnLoggerReplace, h]
  · intro h
    simp [DefaultLogger.CloseFileOnLoggerReplace, h]
  · intro h hne
    simp [DefaultLogger.CloseFileOnLoggerReplace, h, hne]

/-- Witness for C7: an untracked logger accepts handle 5; the fixture
tracking handle 5 accepts 5 again and rejects handle 7 keeping its
registration. -/
theorem C7_close_file_registration_witness :
    (testLogger.file = none ∧
      testLogger.CloseFileOnLoggerReplace 5 =
        ({ testLogger with file := some 5 }, none)) ∧
    (testTrackedLogger.file = some 5 ∧
      testTrackedLogger.CloseFileOnLoggerReplace 5 =
        ({ testTrackedLogger with file := some 5 }, none)) ∧
    ((5 : Nat) ≠ 7 ∧
      testTrackedLogger.CloseFileOnLoggerReplace 7 =
        (testTrackedLogger,
          some "could not set a file to close on logger reset because there were already set one")) :=
  ⟨⟨rfl, (C7_close_file_registration testLogger 5 7).1 rfl⟩,
   ⟨rfl, (C7_close_file_registration testTrackedLogger 5 7).2.1 rfl⟩,
   ⟨by decide, (C7_close_file_registration testTrackedLogger 5 7).2.2 rfl (by decide)⟩⟩

/-- C8: `Replace` is exactly "swap the singleton, then close the old
logger's file against the already-swapped world"; when the old logger
tracked no file or the close succeeds the new singleton is installed
untouched, and when the close fails the failure is logged as an
error-level message through the *new* singleton — `Replace` itself
returns only the new world, never an error. -/
theorem C8_replace_swaps_then_closes (closeRes : Nat → Option String)
    (w : World) (old newLogger : DefaultLogger) :
    old.Replace closeRes w newLogger =
      closeLogFile closeRes (SetLogger w newLogger) old.file ∧
    (old.file = none →
      old.Replace closeRes w newLogger = { w with logger := newLogger }) ∧
    (∀ f, old.file = some f → closeRes f = none →
      old.Replace closeRes w newLogger = { w with logger := newLogger }) ∧
    (∀ f e, old.file = some f → closeRes f = some e →
      old.Replace closeRes w newLogger =
        { w with logger :=
            (newLogger.Errorf ("failed to close log file: " ++ e)).1 }) := by
  refine ⟨rfl, ?_, ?_, ?_⟩
  · intro h
    simp [DefaultLogger.Replace, closeLogFile, SetLogger, h]
  · intro f hf hc
    simp [DefaultLogger.Replace, closeLogFile, SetLogger, hf, hc]
  · intro f e hf hc
    simp [DefaultLogger.Replace, closeLogFile, SetLogger, hf, hc]

/-- A concrete close that always fails with message "boom". -/
def testCloseFail : Nat → Option String := fun _ => some "boom"

/-- A concrete world whose singleton is the enabled fixture. -/
def testWorld : World := { logger := testLogger }

/-- Witness for C8: replacing the fixture that tracks file 5, with a
close that fails, installs the new logger and routes the close-failure
error message through it. -/
theorem C8_replace_swaps_then_closes_witness :
    testTrackedLogger.file = some 5 ∧
    testCloseFail 5 = some "boom" ∧
    testTrackedLogger.Replace testCloseFail testWorld testDisabledLogger =
      { testWorld with logger :=
          (testDisabledLogger.Errorf ("failed to close log file: " ++ "boom")).1 } :=
  ⟨rfl, rfl,
    (C8_replace_swaps_then_closes testCloseFail testWorld testTrackedLogger
      testDisabledLogger).2.2.2 5 "boom" rfl rfl⟩

/-- From a successful parse, the reported canonical level name is the
lowercased input, except for the alias "warn" which reports as
"warning". -/
theorem ParseLevel_ok_name (level : String) (lvl : Level)
    (h : ParseLevel level = .ok lvl) :
    lvl.toStr = goToLower level ∨
      (goToLower level = "warn" ∧ lvl.toStr = "warning") := by
  simp only [ParseLevel] at h
  split_ifs at h with h1 h2 h3 h4 h5 h6 h7 h8
  · injection h with h
    subst h
    left
    rw [h1]
    rfl
  · injection h with h
    subst h
    left
    rw [h2]
    rfl
  · injection h with h
    subst h
    left
    rw [h3]
    rfl
  · injection h with h
    subst h
    right
    exact ⟨h4, rfl⟩
  · injection h with h
    subst h
    left
    rw [h5]
    rfl
  · injection h with h
    subst h
    left
    rw [h6]
    rfl
  · injection h with h
    subst h
    left
    rw [h7]
    rfl
  · injection h with h
    subst h
    left
    rw [h8]
    rfl

/-- C9 counterexample: "warn" is a valid severity name, and
`SetLogLevel("warn")` succeeds, but the subsequent `GetLogLevel()`
returns "warning", which is not "warn" normalized in case only — the two
differ even after lowercasing both. -/
theorem C9_counterexample_warn_reports_warning :
    (testLogger.SetLogLevel "warn").2 = none ∧
    (testLogger.SetLogLevel "warn").1.GetLogLevel = "warning" ∧
    goToLower "warning" ≠ goToLower "warn" := by
  refine ⟨?_, ?_, ?_⟩ <;> decide

/-- C9 amended: for every valid severity name in any letter case,
`SetLogLevel` succeeds and `GetLogLevel` returns the engine's canonical
lowercase name of the parsed severity — the lowercased input for every
name except the alias "warn", which is reported as "warning". -/
theorem C9_amended_set_then_get (log : DefaultLogger) (level : String)
    (lvl : Level) (hOff : goToUpper level ≠ "OFF")
    (hOk : ParseLevel level = .ok lvl) :
    (log.SetLogLevel level).2 = none ∧
    (log.SetLogLevel level).1.GetLogLevel = lvl.toStr ∧
    (lvl.toStr = goToLower level ∨
      (goToLower level = "warn" ∧ lvl.toStr = "warning")) := by
  have hset : log.SetLogLevel level =
      ({ { log with enabled := true } with
          inner := { log.inner with level := lvl } }, none) := by
    simp [DefaultLogger.SetLogLevel, hOff, hOk]
  exact ⟨by rw [hset], by rw [hset]; rfl, ParseLevel_ok_name level lvl hOk⟩

/-- Witness for the amended C9 at the mixed-case input "WARN". -/
theorem C9_amended_set_then_get_witness :
    goToUpper "WARN" ≠ "OFF" ∧
    ParseLevel "WARN" = .ok .warn ∧
    ((testLogger.SetLogLevel "WARN").2 = none ∧
      (testLogger.SetLogLevel "WARN").1.GetLogLevel = Level.toStr .warn ∧
      (Level.toStr .warn = goToLower "WARN" ∨
        (goToLower "WARN" = "warn" ∧ Level.toStr .warn = "warning"))) :=
  ⟨by decide, rfl,
    C9_amended_set_then_get testLogger "WARN" .warn (by decide) rfl⟩

/-- C10: on a disabled logger the Fatal and Panic families return
normally with the logger unchanged — the gate suppresses not only their
output but also the process-exit and panic effects the engine would
otherwise produce. -/
theorem C10_disabled_suppresses_termination (log : DefaultLogger)
    (msg : String) (hDis : log.enabled = false) :
    log.Fatalf msg = (log, .normal) ∧ log.Fatal msg = (log, .normal) ∧
    log.Fatalln msg = (log, .normal) ∧ log.Panicf msg = (log, .normal) ∧
    log.Panic msg = (log, .normal) ∧ log.Panicln msg = (log, .normal) := by
  refine ⟨?_, ?_, ?_, ?_, ?_, ?_⟩ <;>
    simp [DefaultLogger.Fatalf, DefaultLogger.Fatal, DefaultLogger.Fatalln,
      DefaultLogger.Panicf, DefaultLogger.Panic, DefaultLogger.Panicln,
      DefaultLogger.gated, hDis]

/-- Witness for C10 at the disabled fixture. -/
theorem C10_disabled_suppresses_termination_witness :
    testDisabledLogger.enabled = false ∧
    (testDisabledLogger.Fatalf "bye" = (testDisabledLogger, .normal) ∧
      testDisabledLogger.Fatal "bye" = (testDisabledLogger, .normal) ∧
      testDisabledLogger.Fatalln "bye" = (testDisabledLogger, .normal) ∧
      testDisabledLogger.Panicf "bye" = (testDisabledLogger, .normal) ∧
      testDisabledLogger.Panic "bye" = (testDisabledLogger, .normal) ∧
      testDisabledLogger.Panicln "bye" = (testDisabledLogger, .normal)) :=
  ⟨rfl, C10_disabled_suppresses_termination testDisabledLogger "bye" rfl⟩
